import Mathlib

/-!
Shallow embedding of `diffur` (src/src/diffur.rs), a small terminal front-end
that lets a user edit two scratch text buffers and diff them with an external
viewer.

Modelling conventions:
* The two scratch files are modelled by `FsState`: the text content of each
  file plus a readability flag (a file deleted or made unreadable by an
  external process has its flag `false`; `std::fs::read_to_string` then fails).
* Terminal modes toggled through crossterm (`raw mode`, alternate screen,
  mouse capture, cursor visibility) are modelled by `TermState` booleans.
* Every fallible external operation (crossterm calls, `terminal.draw`,
  `set_len`, spawning a process) has its success or failure injected through
  an environment record (`EditEnv`, `StepEnv`, `MainEnv`), so theorems can
  quantify over all failure patterns.
* Rust `?`-propagation is an early return carrying an `IoErr`; a Rust
  `expect` panic is the distinct outcome `panicked` (it unwinds past all the
  remaining code of `main`, so no later statement of `main` runs).
* Spawned external processes are recorded as `SpawnCmd` (program name plus
  argv) in a trace. The editor process may rewrite the targeted file (content
  and readability injected through `EditEnv`); the diff viewer is a read-only
  collaborator and leaves the filesystem untouched.
-/

namespace Diffur

/-- State of the two scratch files: text content plus whether a
`read_to_string` on the backing path currently succeeds. -/
structure FsState where
  leftContent : String
  rightContent : String
  leftReadable : Bool
  rightReadable : Bool
deriving DecidableEq, Repr

/-- Terminal mode bits toggled by the program through crossterm. -/
structure TermState where
  rawMode : Bool
  altScreen : Bool
  mouseCapture : Bool
  cursorVisible : Bool
deriving DecidableEq, Repr

/-- The TUI state of `struct App`: the two named temp files, identified here
by their paths (contents live in `FsState`). -/
structure App where
  leftPath : String
  rightPath : String
deriving DecidableEq, Repr

/-- `enum UpdateKind`: which buffer an edit targets. -/
inductive UpdateKind where
  | Left
  | Right
deriving DecidableEq, Repr

/-- One spawned external process: program name and argument list, as built by
`std::process::Command`. -/
structure SpawnCmd where
  program : String
  args : List String
deriving DecidableEq, Repr

/-- The path handed to the external process, `app.left.path()` or
`app.right.path()`. -/
def bufPath (app : App) : UpdateKind → String
  | .Left => app.leftPath
  | .Right => app.rightPath

/-- `std::fs::read_to_string(path)`: `some` content on success, `none` when
the backing file is missing or unreadable. -/
def read_to_string (fs : FsState) : UpdateKind → Option String
  | .Left => if fs.leftReadable then some fs.leftContent else none
  | .Right => if fs.rightReadable then some fs.rightContent else none

/-- `std::fs::read_to_string(..).unwrap_or_default()` as used by `ui`:
the content on success, the empty string on any read failure. -/
def displayContents (fs : FsState) (uk : UpdateKind) : String :=
  (read_to_string fs uk).getD ""

/-- A rectangular screen area (ratatui `Rect`). -/
structure Rect where
  x : Nat
  y : Nat
  width : Nat
  height : Nat
deriving DecidableEq, Repr

/-- `Layout::vertical([Constraint::Length(1), Constraint::Min(1)])` applied to
the frame area: a one-row help bar on top, the rest below. The split is a
deterministic function of the input area, as the library's solver is. -/
def splitVertical (r : Rect) : Rect × Rect :=
  (⟨r.x, r.y, r.width, min 1 r.height⟩,
   ⟨r.x, r.y + min 1 r.height, r.width, r.height - min 1 r.height⟩)

/-- `Layout::horizontal([Constraint::Percentage(50), Constraint::Percentage(50)])`:
two side-by-side halves. Deterministic function of the input area. -/
def splitHorizontal (r : Rect) : Rect × Rect :=
  (⟨r.x, r.y, r.width / 2, r.height⟩,
   ⟨r.x + r.width / 2, r.y, r.width - r.width / 2, r.height⟩)

/-- One styled span of the help line (text plus whether it carries the
green/bold key style). -/
structure Span where
  text : String
  keyStyle : Bool
deriving DecidableEq, Repr

/-- `help_widget()`: the fixed one-line help bar listing the key bindings. -/
def help_widget : List Span :=
  [⟨"[q]", true⟩, ⟨" Quit - ", false⟩,
   ⟨"[a]", true⟩, ⟨" edit left - ", false⟩,
   ⟨"[b]", true⟩, ⟨" edit right - ", false⟩,
   ⟨"[c]", true⟩, ⟨" clear input - ", false⟩,
   ⟨"[d]", true⟩, ⟨" diff text", false⟩]

/-- A rendered paragraph widget: its text, soft-wrap setting (`Wrap` with
`trim`), and bordered-block title. -/
structure ParagraphW where
  text : String
  wrapTrim : Bool
  title : String
deriving DecidableEq, Repr

/-- The full layout produced by one call of `ui`: the help bar and the two
bordered panels, each with the area it is rendered into. -/
structure UiLayout where
  helpArea : Rect
  helpSpans : List Span
  leftArea : Rect
  leftPanel : ParagraphW
  rightArea : Rect
  rightPanel : ParagraphW
deriving DecidableEq, Repr

/-- `fn ui(f, app)`: pure rendering function. It splits the frame area,
renders the help widget, re-reads both files (absorbing read failures into
empty strings) and renders the two bordered, soft-wrapped panels. It returns
only a layout description and changes no state. -/
def ui (frame : Rect) (fs : FsState) : UiLayout :=
  let vsplit := splitVertical frame
  let hsplit := splitHorizontal vsplit.2
  let left_contents := displayContents fs .Left
  let right_contents := displayContents fs .Right
  { helpArea := vsplit.1
    helpSpans := help_widget
    leftArea := hsplit.1
    leftPanel := ⟨left_contents, false, "Contents (Left)"⟩
    rightArea := hsplit.2
    rightPanel := ⟨right_contents, false, "Contents (Right)"⟩ }

/-- Errors carried by Rust `?`-propagation, one case per fallible call site. -/
inductive IoErr where
  | enableRaw
  | enterAlt
  | newTerm
  | disableRaw
  | leaveAlt
  | showCursor
  | clearTerm
  | draw
  | readEvent
  | brokenPipe
  | setLenLeft
  | setLenRight
deriving DecidableEq, Repr

/-- Outcome of `launch_editor` / `diff_files`: normal return, an error
returned through `?`, or a panic from `expect` (which unwinds, skipping all
remaining code of the caller). -/
inductive LStatus where
  | ok
  | errs (e : IoErr)
  | panicked (msg : String)
deriving DecidableEq, Repr

/-- Mutable world threaded through the program: terminal mode, scratch-file
state, and the trace of spawned external processes. -/
structure World where
  term : TermState
  fs : FsState
  spawned : List SpawnCmd
deriving DecidableEq, Repr

/-- Failure/effect injection for one `launch_editor` or `diff_files` call:
success of each crossterm transition and of the spawn, the `EDITOR`
environment variable, what the editor leaves in the targeted file, and the
external process's exit status (which the source never inspects:
`.status()` succeeds whether or not the child exited with 0). -/
structure EditEnv where
  leaveAltOk : Bool
  disableRawOk : Bool
  editorVar : Option String
  spawnOk : Bool
  exitCode : Int
  editedContent : String
  editedReadable : Bool
  enableRawOk : Bool
  enterAltOk : Bool
  clearOk : Bool
  drawOk : Bool
deriving DecidableEq, Repr

/-- Effect of the external editor process on the targeted file. -/
def writeBuf (fs : FsState) (uk : UpdateKind) (content : String) (readable : Bool) : FsState :=
  match uk with
  | .Left => { fs with leftContent := content, leftReadable := readable }
  | .Right => { fs with rightContent := content, rightReadable := readable }

/-- `fn launch_editor(app, update_kind, terminal)`: leave the alternate
screen, disable raw mode, resolve `EDITOR` (default `"vim"`), run
`Command::new(editor).arg(path).status().expect("failed to edit")` — a spawn
failure panics here — then re-enable raw mode, re-enter the alternate screen,
clear and redraw. -/
def launch_editor (app : App) (update_kind : UpdateKind) (env : EditEnv) (w : World) :
    World × LStatus :=
  if env.leaveAltOk = false then (w, .errs .leaveAlt) else
  let w1 : World := { w with term := { w.term with altScreen := false } }
  if env.disableRawOk = false then (w1, .errs .disableRaw) else
  let w2 : World := { w1 with term := { w1.term with rawMode := false } }
  let editor := env.editorVar.getD "vim"
  let path := bufPath app update_kind
  if env.spawnOk = false then (w2, .panicked "failed to edit") else
  let w3 : World := { w2 with
    spawned := w2.spawned ++ [⟨editor, [path]⟩]
    fs := writeBuf w2.fs update_kind env.editedContent env.editedReadable }
  if env.enableRawOk = false then (w3, .errs .enableRaw) else
  let w4 : World := { w3 with term := { w3.term with rawMode := true } }
  if env.enterAltOk = false then (w4, .errs .enterAlt) else
  let w5 : World := { w4 with term := { w4.term with altScreen := true } }
  if env.clearOk = false then (w5, .errs .clearTerm) else
  if env.drawOk = false then (w5, .errs .draw) else
  (w5, .ok)

/-- `fn diff_files(app, terminal)`: leave the alternate screen, disable raw
mode, run `Command::new("delta").arg(left).arg(right).arg("--paging")
.arg("always").status().expect("failed to diff")` — a spawn failure panics —
then re-enable raw mode, re-enter the alternate screen, clear and redraw.
The diff viewer only reads the files, so `fs` is never touched. -/
def diff_files (app : App) (env : EditEnv) (w : World) : World × LStatus :=
  if env.leaveAltOk = false then (w, .errs .leaveAlt) else
  let w1 : World := { w with term := { w.term with altScreen := false } }
  if env.disableRawOk = false then (w1, .errs .disableRaw) else
  let w2 : World := { w1 with term := { w1.term with rawMode := false } }
  if env.spawnOk = false then (w2, .panicked "failed to diff") else
  let w3 : World := { w2 with
    spawned := w2.spawned ++
      [⟨"delta", [app.leftPath, app.rightPath, "--paging", "always"]⟩] }
  if env.enableRawOk = false then (w3, .errs .enableRaw) else
  let w4 : World := { w3 with term := { w3.term with rawMode := true } }
  if env.enterAltOk = false then (w4, .errs .enterAlt) else
  let w5 : World := { w4 with term := { w4.term with altScreen := true } }
  if env.clearOk = false then (w5, .errs .clearTerm) else
  if env.drawOk = false then (w5, .errs .draw) else
  (w5, .ok)

/-- The body of the `'c'` arm of `run_app`:
`app.left.as_file().set_len(0)?; app.right.as_file().set_len(0)?;` with the
success of each `set_len` injected. A failing `set_len` leaves the file
unchanged and its error propagates through `?`. -/
def clear_both (leftOk rightOk : Bool) (fs : FsState) : FsState × Option IoErr :=
  if leftOk = false then (fs, some .setLenLeft) else
  let fs1 : FsState := { fs with leftContent := "" }
  if rightOk = false then (fs1, some .setLenRight) else
  ({ fs1 with rightContent := "" }, none)

/-- One result of `event::read()?`: a key event, some non-key event (mouse,
resize, ...), or a read failure. -/
inductive KeyEvt where
  | keyChar (c : Char)
  | otherEvent
  | readFail
deriving DecidableEq, Repr

/-- Injected outcomes for one iteration of the `run_app` loop: success of the
top-of-loop `terminal.draw`, the input event, the environment for a possible
`launch_editor`/`diff_files` call, and the success of the two `set_len`
calls of the `'c'` arm. -/
structure StepEnv where
  drawOk : Bool
  input : KeyEvt
  editEnv : EditEnv
  setLenLeftOk : Bool
  setLenRightOk : Bool
deriving DecidableEq, Repr

/-- How one loop iteration ends: continue looping, `return Ok(())` on quit,
an error propagated with `?`, or a panic unwinding out of the loop. -/
inductive StepOut where
  | next
  | quitOk
  | errs (e : IoErr)
  | panicked (msg : String)
deriving DecidableEq, Repr

/-- One iteration of the `loop` in `run_app`: draw, read one event, dispatch
on the key. Errors from `launch_editor`/`diff_files` are collapsed by
`.map_err(|_| io::ErrorKind::BrokenPipe)?`; panics pass through. -/
def step (app : App) (s : StepEnv) (w : World) : World × StepOut :=
  if s.drawOk = false then (w, .errs .draw) else
  match s.input with
  | .readFail => (w, .errs .readEvent)
  | .otherEvent => (w, .next)
  | .keyChar c =>
    match c with
    | 'a' =>
      match launch_editor app .Left s.editEnv w with
      | (w', .ok) => (w', .next)
      | (w', .errs _) => (w', .errs .brokenPipe)
      | (w', .panicked m) => (w', .panicked m)
    | 'b' =>
      match launch_editor app .Right s.editEnv w with
      | (w', .ok) => (w', .next)
      | (w', .errs _) => (w', .errs .brokenPipe)
      | (w', .panicked m) => (w', .panicked m)
    | 'c' =>
      match clear_both s.setLenLeftOk s.setLenRightOk w.fs with
      | (fs', none) => ({ w with fs := fs' }, .next)
      | (fs', some e) => ({ w with fs := fs' }, .errs e)
    | 'd' =>
      match diff_files app s.editEnv w with
      | (w', .ok) => (w', .next)
      | (w', .errs _) => (w', .errs .brokenPipe)
      | (w', .panicked m) => (w', .panicked m)
    | 'q' => (w, .quitOk)
    | _ => (w, .next)

/-- How `run_app` ends on a finite script of injected iterations: `ok` is
`return Ok(())` from the quit key, `errs` a `?`-propagated error, `panicked`
an unwinding panic; `pending` means the script was exhausted with the loop
still running (the real loop would block for the next event). -/
inductive LoopOut where
  | ok
  | errs (e : IoErr)
  | panicked (msg : String)
  | pending
deriving DecidableEq, Repr

/-- `fn run_app(terminal, app)`: the blocking event loop, driven by a finite
script of injected iteration environments. -/
def run_app (app : App) : List StepEnv → World → World × LoopOut
  | [], w => (w, .pending)
  | s :: rest, w =>
    match step app s w with
    | (w', .next) => run_app app rest w'
    | (w', .quitOk) => (w', .ok)
    | (w', .errs e) => (w', .errs e)
    | (w', .panicked m) => (w', .panicked m)

/-- The terminal before the program touches it. -/
def term0 : TermState :=
  { rawMode := false, altScreen := false, mouseCapture := false, cursorVisible := true }

/-- Terminal state after `main`'s setup block succeeded: raw mode on,
alternate screen entered, mouse capture enabled. -/
def setupTerm : TermState :=
  { term0 with rawMode := true, altScreen := true, mouseCapture := true }

/-- The world handed to `run_app` after a successful setup. -/
def initWorld (fs : FsState) : World :=
  { term := setupTerm, fs := fs, spawned := [] }

/-- Failure injection for `main`: the setup block (`enable_raw_mode`,
`execute!(EnterAlternateScreen, EnableMouseCapture)`, `Terminal::new`, the
two `NamedTempFile::new().expect(..)`), the loop script, and the restore
block (`disable_raw_mode`, `execute!(LeaveAlternateScreen,
DisableMouseCapture)`, `terminal.show_cursor`). -/
structure MainEnv where
  enableRawOk : Bool
  enterAltOk : Bool
  newTermOk : Bool
  tempfileOk : Bool
  script : List StepEnv
  disableRawOk : Bool
  leaveAltOk : Bool
  showCursorOk : Bool
deriving DecidableEq, Repr

/-- How the process ends: `success` is `Ok(())` from `main`, i.e. exit code
0; `failure` is an `Err` from `main`, i.e. a non-zero exit code; `panicAbort`
is an unwinding panic (non-zero exit, none of `main`'s remaining statements
run); `stuck` only reflects an exhausted finite script. -/
inductive MainExit where
  | success
  | failure (e : IoErr)
  | panicAbort (msg : String)
  | stuck
deriving DecidableEq, Repr

/-- Observable result of one whole run of `main`: final terminal and file
state, spawn trace, whether control reached the restore block, what (if
anything) `println!("{err:?}")` printed to standard output, and the exit. -/
structure MainResult where
  term : TermState
  fs : FsState
  spawned : List SpawnCmd
  restoreAttempted : Bool
  printed : Option IoErr
  exit : MainExit
deriving DecidableEq, Repr

/-- `fn main()`: setup (each `?` failure exits with that error, a temp-file
failure panics), then `run_app`, then — whenever `run_app` returns rather
than panics — the restore block, and finally
`if let Err(err) = res { println!("{err:?}"); } Ok(())`: the loop's residual
error is printed and `main` still returns `Ok(())`. -/
def main (app : App) (fs : FsState) (env : MainEnv) : MainResult :=
  if env.enableRawOk = false then
    ⟨term0, fs, [], false, none, .failure .enableRaw⟩ else
  let t1 : TermState := { term0 with rawMode := true }
  if env.enterAltOk = false then ⟨t1, fs, [], false, none, .failure .enterAlt⟩ else
  let t2 : TermState := { t1 with altScreen := true, mouseCapture := true }
  if env.newTermOk = false then ⟨t2, fs, [], false, none, .failure .newTerm⟩ else
  if env.tempfileOk = false then
    ⟨t2, fs, [], false, none, .panicAbort "Failed to create temp file"⟩ else
  match run_app app env.script (initWorld fs) with
  | (w, .pending) => ⟨w.term, w.fs, w.spawned, false, none, .stuck⟩
  | (w, .panicked m) => ⟨w.term, w.fs, w.spawned, false, none, .panicAbort m⟩
  | (w, res) =>
    if env.disableRawOk = false then
      ⟨w.term, w.fs, w.spawned, true, none, .failure .disableRaw⟩ else
    let t3 : TermState := { w.term with rawMode := false }
    if env.leaveAltOk = false then
      ⟨t3, w.fs, w.spawned, true, none, .failure .leaveAlt⟩ else
    let t4 : TermState := { t3 with altScreen := false, mouseCapture := false }
    if env.showCursorOk = false then
      ⟨t4, w.fs, w.spawned, true, none, .failure .showCursor⟩ else
    let t5 : TermState := { t4 with cursorVisible := true }
    match res with
    | .errs e => ⟨t5, w.fs, w.spawned, true, some e, .success⟩
    | _ => ⟨t5, w.fs, w.spawned, true, none, .success⟩

/-- The setup block of `main` succeeds as a whole. -/
def setupOk (env : MainEnv) : Bool :=
  env.enableRawOk && env.enterAltOk && env.newTermOk && env.tempfileOk

/-- The restore block of `main` succeeds as a whole. -/
def restoreAllOk (env : MainEnv) : Bool :=
  env.disableRawOk && env.leaveAltOk && env.showCursorOk

/-- Whether the process ends with a non-zero exit status: an `Err` out of
`main` makes the Rust runtime exit 1, and an unwinding panic exits 101. -/
def nonZeroExit : MainExit → Bool
  | .success => false
  | .failure _ => true
  | .panicAbort _ => true
  | .stuck => false

/-! Concrete fixtures used by witnesses and counterexamples. -/

/-- A concrete `App`: two temp-file paths. -/
def app0 : App := ⟨"/tmp/diffur-left", "/tmp/diffur-right"⟩

/-- Both scratch files empty and readable. -/
def fsEmpty : FsState := ⟨"", "", true, true⟩

/-- Scratch files holding "hello" / "world", both readable. -/
def fsHello : FsState := ⟨"hello", "world", true, true⟩

/-- An edit/diff environment in which every external operation succeeds,
`EDITOR` is unset, and the editor writes "hello". -/
def edAllOk : EditEnv :=
  ⟨true, true, none, true, 0, "hello", true, true, true, true, true⟩

/-- Same environment but the spawn of the external process fails. -/
def edSpawnFail : EditEnv := { edAllOk with spawnOk := false }

/-- An iteration that presses the quit key, everything succeeding. -/
def stepQuit : StepEnv := ⟨true, .keyChar 'q', edAllOk, true, true⟩

/-- An iteration that presses the clear key, everything succeeding. -/
def stepClear : StepEnv := ⟨true, .keyChar 'c', edAllOk, true, true⟩

/-- An iteration that presses the clear key and the left `set_len(0)` fails. -/
def stepClearFailL : StepEnv := ⟨true, .keyChar 'c', edAllOk, false, true⟩

/-- An iteration that presses the clear key, the left `set_len(0)` succeeds
and the right one fails. -/
def stepClearFailR : StepEnv := ⟨true, .keyChar 'c', edAllOk, true, false⟩

/-- An iteration in which `event::read()` fails. -/
def stepReadFail : StepEnv := ⟨true, .readFail, edAllOk, true, true⟩

/-- An iteration that presses edit-left and the editor spawn fails. -/
def stepEditSpawnFail : StepEnv := ⟨true, .keyChar 'a', edSpawnFail, true, true⟩

/-- A `main` environment with a given script and every other operation
succeeding. -/
def envWith (script : List StepEnv) : MainEnv :=
  ⟨true, true, true, true, script, true, true, true⟩

/-- A `main` environment in which everything succeeds except the
`execute!(LeaveAlternateScreen, DisableMouseCapture)` of the restore
block. -/
def envLeaveAltFail : MainEnv :=
  ⟨true, true, true, true, [stepQuit], true, false, true⟩

/-- A concrete 80x24 frame. -/
def rect0 : Rect := ⟨0, 0, 80, 24⟩

/-- A state whose left file is unreadable (e.g. deleted externally) and whose
right file holds "world". -/
def fsBroken : FsState := ⟨"junk", "world", false, true⟩

/-! Helper lemmas shared by the claim theorems. -/

/-- A buffer whose content is empty reads back empty whether or not the
backing file is readable. -/
theorem displayContents_empty (fs : FsState) (uk : UpdateKind)
    (hl : fs.leftContent = "") (hr : fs.rightContent = "") :
    displayContents fs uk = "" := by
  rcases fs with ⟨l, r, lb, rb⟩
  cases uk <;> cases lb <;> cases rb <;> simp_all [displayContents, read_to_string]

/-! Claim theorems. -/

/-- Claim C10: the clear action is sequential and not atomic: the left buffer
is truncated before the right one; if the left `set_len(0)` fails the handler
returns that error with the whole file state (in particular the right
buffer's content) unchanged; if the left one succeeds and the right one
fails, the left buffer is already truncated; and inside the event loop a
failing left truncation ends the iteration with that error before the right
buffer is touched. -/
theorem C10_clear_sequential (fs : FsState) (rOk : Bool) (app : App) (ee : EditEnv)
    (w : World) :
    clear_both false rOk fs = (fs, some .setLenLeft) ∧
    clear_both true false fs = ({ fs with leftContent := "" }, some .setLenRight) ∧
    clear_both true true fs = ({ fs with leftContent := "", rightContent := "" }, none) ∧
    step app ⟨true, .keyChar 'c', ee, false, rOk⟩ w = (w, .errs .setLenLeft) :=
  ⟨rfl, rfl, rfl, rfl⟩

/-- Claim C8: the read-for-display of `ui` returns the buffer's full content
on success and absorbs any read failure into the empty string, so the
renderer never fails on a missing/unreadable file; the rendered panels show
exactly these absorbed reads. -/
theorem C8_read_absorbs_failure (fs : FsState) (uk : UpdateKind) (frame : Rect)
    (s : String) :
    (read_to_string fs uk = some s → displayContents fs uk = s) ∧
    (read_to_string fs uk = none → displayContents fs uk = "") ∧
    (ui frame fs).leftPanel.text = displayContents fs .Left ∧
    (ui frame fs).rightPanel.text = displayContents fs .Right := by
  refine ⟨?_, ?_, rfl, rfl⟩ <;> intro h <;> simp [displayContents, h]

/-- Witness for C8 at a concrete state whose left file is unreadable. -/
theorem C8_read_absorbs_failure_witness :
    displayContents fsBroken .Left = "" ∧ displayContents fsBroken .Right = "world" :=
  ⟨(C8_read_absorbs_failure fsBroken .Left rect0 "").2.1 rfl,
   (C8_read_absorbs_failure fsBroken .Right rect0 "world").1 rfl⟩

/-- Claim C9: the renderer is a pure function of the two (as-read) buffer
contents and the frame area: two states that read back identically render to
identical layouts. `ui` returns only a `UiLayout` and changes no state, so it
is side-effect-free by construction. -/
theorem C9_renderer_deterministic (fs1 fs2 : FsState) (frame : Rect)
    (hL : displayContents fs1 .Left = displayContents fs2 .Left)
    (hR : displayContents fs1 .Right = displayContents fs2 .Right) :
    ui frame fs1 = ui frame fs2 := by
  simp [ui, hL, hR]

/-- Witness for C9: an empty-but-readable left file and an unreadable left
file display identically, so the layouts coincide. -/
theorem C9_renderer_deterministic_witness :
    ui rect0 ⟨"", "world", true, true⟩ = ui rect0 fsBroken :=
  C9_renderer_deterministic ⟨"", "world", true, true⟩ fsBroken rect0 rfl rfl

/-- Claim C6: a clear-key iteration on which both `set_len(0)` calls succeed
truncates both buffers to zero length; afterwards, whatever the prior
contents, each buffer reads back empty, and the loop continues. -/
theorem C6_clear_empties_both (app : App) (ee : EditEnv) (w : World) :
    (step app ⟨true, .keyChar 'c', ee, true, true⟩ w).1.fs.leftContent = "" ∧
    (step app ⟨true, .keyChar 'c', ee, true, true⟩ w).1.fs.rightContent = "" ∧
    displayContents (step app ⟨true, .keyChar 'c', ee, true, true⟩ w).1.fs .Left = "" ∧
    displayContents (step app ⟨true, .keyChar 'c', ee, true, true⟩ w).1.fs .Right = "" ∧
    (step app ⟨true, .keyChar 'c', ee, true, true⟩ w).2 = .next :=
  ⟨rfl, rfl, displayContents_empty _ _ rfl rfl, displayContents_empty _ _ rfl rfl, rfl⟩

/-- Claim C5: the diff key invokes the fixed viewer `delta` with exactly the
left path, the right path, `--paging`, `always`; and `diff_files` never
touches the file state, so both buffers read back their prior content. -/
theorem C5_diff_invocation (app : App) (env : EditEnv) (w : World)
    (h1 : env.leaveAltOk = true) (h2 : env.disableRawOk = true)
    (h3 : env.spawnOk = true) :
    (diff_files app env w).1.spawned =
      w.spawned ++ [⟨"delta", [app.leftPath, app.rightPath, "--paging", "always"]⟩] ∧
    (diff_files app env w).1.fs = w.fs ∧
    displayContents (diff_files app env w).1.fs .Left = displayContents w.fs .Left ∧
    displayContents (diff_files app env w).1.fs .Right = displayContents w.fs .Right := by
  have hfs : (diff_files app env w).1.fs = w.fs := by
    cases h4 : env.enableRawOk <;> cases h5 : env.enterAltOk <;>
      cases h6 : env.clearOk <;> cases h7 : env.drawOk <;>
      simp [diff_files, h1, h2, h3, h4, h5, h6, h7]
  have hsp : (diff_files app env w).1.spawned =
      w.spawned ++ [⟨"delta", [app.leftPath, app.rightPath, "--paging", "always"]⟩] := by
    cases h4 : env.enableRawOk <;> cases h5 : env.enterAltOk <;>
      cases h6 : env.clearOk <;> cases h7 : env.drawOk <;>
      simp [diff_files, h1, h2, h3, h4, h5, h6, h7]
  exact ⟨hsp, hfs, by rw [hfs], by rw [hfs]⟩

/-- Witness for C5 at a concrete all-success run on "hello"/"world". -/
theorem C5_diff_invocation_witness :
    (diff_files app0 edAllOk ⟨setupTerm, fsHello, []⟩).1.spawned =
      [⟨"delta", ["/tmp/diffur-left", "/tmp/diffur-right", "--paging", "always"]⟩] ∧
    (diff_files app0 edAllOk ⟨setupTerm, fsHello, []⟩).1.fs = fsHello := by
  have h := C5_diff_invocation app0 edAllOk ⟨setupTerm, fsHello, []⟩ rfl rfl rfl
  exact ⟨h.1, h.2.1⟩

/-- Claim C7: the edit key invokes the program named by the `EDITOR`
environment variable, defaulting to `"vim"` when it is unset, with exactly
one argument: the targeted buffer's path (left for edit-left, right for
edit-right). -/
theorem C7_editor_invocation (app : App) (uk : UpdateKind) (env : EditEnv) (w : World)
    (h1 : env.leaveAltOk = true) (h2 : env.disableRawOk = true)
    (h3 : env.spawnOk = true) :
    (∀ ed, env.editorVar = some ed →
      (launch_editor app uk env w).1.spawned = w.spawned ++ [⟨ed, [bufPath app uk]⟩]) ∧
    (env.editorVar = none →
      (launch_editor app uk env w).1.spawned =
        w.spawned ++ [⟨"vim", [bufPath app uk]⟩]) ∧
    bufPath app .Left = app.leftPath ∧ bufPath app .Right = app.rightPath := by
  have key : (launch_editor app uk env w).1.spawned =
      w.spawned ++ [⟨env.editorVar.getD "vim", [bufPath app uk]⟩] := by
    cases h4 : env.enableRawOk <;> cases h5 : env.enterAltOk <;>
      cases h6 : env.clearOk <;> cases h7 : env.drawOk <;>
      simp [launch_editor, h1, h2, h3, h4, h5, h6, h7]
  refine ⟨?_, ?_, rfl, rfl⟩
  · intro ed hed; rw [key, hed]; rfl
  · intro hed; rw [key, hed]; rfl

/-- Witness for C7: with `EDITOR` unset the left edit spawns `vim` on the
left temp path. -/
theorem C7_editor_invocation_witness :
    (launch_editor app0 .Left edAllOk (initWorld fsEmpty)).1.spawned =
      [⟨"vim", ["/tmp/diffur-left"]⟩] :=
  (C7_editor_invocation app0 .Left edAllOk (initWorld fsEmpty) rfl rfl rfl).2.1 rfl

/-- Counterexample to claim C2 as stated: in a run whose first iteration
presses the clear key and whose left `set_len(0)` fails, the loop does not
continue to the next scripted iteration (a quit); it terminates at once with
the truncation error. -/
theorem C2_counterexample :
    run_app app0 [stepClearFailL, stepQuit] (initWorld fsEmpty) =
      (initWorld fsEmpty, .errs .setLenLeft) :=
  rfl

/-- Claim C2 (amended): a failure while truncating either buffer on the
clear key is fatal to the event loop: the error propagates through `?` and
the loop terminates with it (it is later printed after terminal restoration),
instead of continuing to the next iteration. A failing left `set_len(0)`
ends the loop with the state unchanged; a failing right `set_len(0)` ends it
with the left buffer already truncated. -/
theorem C2_amended_truncate_fatal (app : App) (s : StepEnv) (w : World)
    (rest : List StepEnv) (hdraw : s.drawOk = true)
    (hin : s.input = .keyChar 'c') :
    (s.setLenLeftOk = false →
      run_app app (s :: rest) w = (w, .errs .setLenLeft)) ∧
    (s.setLenLeftOk = true → s.setLenRightOk = false →
      run_app app (s :: rest) w =
        ({ w with fs := { w.fs with leftContent := "" } }, .errs .setLenRight)) := by
  obtain ⟨d, i, ee, sl, sr⟩ := s
  cases hdraw
  cases hin
  constructor
  · intro h
    cases h
    rfl
  · intro h1 h2
    cases h1
    cases h2
    rfl

/-- Witness for C2 (amended) at concrete failing iterations, one per
truncation site. -/
theorem C2_amended_truncate_fatal_witness :
    run_app app0 [stepClearFailL] (initWorld fsEmpty) =
      (initWorld fsEmpty, .errs .setLenLeft) ∧
    run_app app0 [stepClearFailR] (initWorld fsEmpty) =
      ({ initWorld fsEmpty with fs := { fsEmpty with leftContent := "" } },
        .errs .setLenRight) :=
  ⟨(C2_amended_truncate_fatal app0 stepClearFailL (initWorld fsEmpty) [] rfl rfl).1 rfl,
   (C2_amended_truncate_fatal app0 stepClearFailR (initWorld fsEmpty) [] rfl rfl).2 rfl rfl⟩

/-- Counterexample to claim C3 as stated: with the suspend step (leave
alternate screen, disable raw mode) succeeded and the external process
failing to start, `launch_editor` panics out of `expect` and the resume step
is never performed — at the panic the terminal is still out of raw mode and
out of the alternate screen. -/
theorem C3_counterexample :
    (launch_editor app0 .Left edSpawnFail (initWorld fsEmpty)).2 =
      .panicked "failed to edit" ∧
    (launch_editor app0 .Left edSpawnFail (initWorld fsEmpty)).1.term.rawMode = false ∧
    (launch_editor app0 .Left edSpawnFail (initWorld fsEmpty)).1.term.altScreen = false :=
  ⟨rfl, rfl, rfl⟩

/-- Claim C3 (amended): for every edit or diff invocation in which the
suspend step succeeded and the external process was started and waited on —
regardless of its exit status, which is never inspected — the resume
transitions are performed, and when they succeed the terminal is back in raw
mode and the alternate screen; if the process cannot be started, the function
panics out of `expect` and no resume is performed. -/
theorem C3_amended_resume (app : App) (uk : UpdateKind) (env : EditEnv) (w : World)
    (h1 : env.leaveAltOk = true) (h2 : env.disableRawOk = true)
    (h3 : env.spawnOk = true) (h4 : env.enableRawOk = true)
    (h5 : env.enterAltOk = true) :
    (launch_editor app uk env w).1.term.rawMode = true ∧
    (launch_editor app uk env w).1.term.altScreen = true ∧
    (diff_files app env w).1.term.rawMode = true ∧
    (diff_files app env w).1.term.altScreen = true := by
  cases h6 : env.clearOk <;> cases h7 : env.drawOk <;>
    simp [launch_editor, diff_files, h1, h2, h3, h4, h5, h6, h7]

/-- Witness for C3 (amended): an all-success edit on a nonzero-exit editor
(exit status 7, ignored by the source) ends back in interactive mode. -/
theorem C3_amended_resume_witness :
    (launch_editor app0 .Left { edAllOk with exitCode := 7 }
      (initWorld fsEmpty)).1.term.rawMode = true ∧
    (launch_editor app0 .Left { edAllOk with exitCode := 7 }
      (initWorld fsEmpty)).1.term.altScreen = true := by
  have h := C3_amended_resume app0 .Left { edAllOk with exitCode := 7 }
    (initWorld fsEmpty) rfl rfl rfl rfl rfl
  exact ⟨h.1, h.2.1⟩

/-- Counterexample to claim C1 as stated: with setup and restoration all
succeeding and the event loop ending in a fatal input-read error, the process
prints the residual error to standard output and then exits with code 0
(`main` returns `Ok(())`), not non-zero. -/
theorem C1_counterexample :
    (main app0 fsEmpty (envWith [stepReadFail])).exit = .success ∧
    (main app0 fsEmpty (envWith [stepReadFail])).printed = some .readEvent :=
  ⟨rfl, rfl⟩

/-- Claim C1 (amended): the process exits 0 on a clean quit and non-zero on
any fatal error during setup (each of the four setup steps: `enable_raw_mode`,
entering the alternate screen, `Terminal::new`, and the temp-file creation,
whose failure panics) or during terminal-mode restoration (each of the three
restore steps: `disable_raw_mode`, leaving the alternate screen,
`show_cursor`); but when the event loop itself ends with an error and
restoration succeeds, the residual error is printed to standard output after
restoration and the process still exits 0 (`main` returns `Ok(())`). -/
theorem C1_amended_exit_codes (app : App) (fs : FsState) (env : MainEnv) (e : IoErr) :
    (env.enableRawOk = false →
      (main app fs env).exit = .failure .enableRaw ∧
      nonZeroExit (main app fs env).exit = true) ∧
    (env.enableRawOk = true → env.enterAltOk = false →
      (main app fs env).exit = .failure .enterAlt ∧
      nonZeroExit (main app fs env).exit = true) ∧
    (env.enableRawOk = true → env.enterAltOk = true → env.newTermOk = false →
      (main app fs env).exit = .failure .newTerm ∧
      nonZeroExit (main app fs env).exit = true) ∧
    (env.enableRawOk = true → env.enterAltOk = true → env.newTermOk = true →
      env.tempfileOk = false →
      (main app fs env).exit = .panicAbort "Failed to create temp file" ∧
      nonZeroExit (main app fs env).exit = true) ∧
    (setupOk env = true →
      ((run_app app env.script (initWorld fs)).2 = .ok ∨
        (run_app app env.script (initWorld fs)).2 = .errs e) →
      env.disableRawOk = false →
      (main app fs env).exit = .failure .disableRaw ∧
      nonZeroExit (main app fs env).exit = true) ∧
    (setupOk env = true →
      ((run_app app env.script (initWorld fs)).2 = .ok ∨
        (run_app app env.script (initWorld fs)).2 = .errs e) →
      env.disableRawOk = true → env.leaveAltOk = false →
      (main app fs env).exit = .failure .leaveAlt ∧
      nonZeroExit (main app fs env).exit = true) ∧
    (setupOk env = true →
      ((run_app app env.script (initWorld fs)).2 = .ok ∨
        (run_app app env.script (initWorld fs)).2 = .errs e) →
      env.disableRawOk = true → env.leaveAltOk = true → env.showCursorOk = false →
      (main app fs env).exit = .failure .showCursor ∧
      nonZeroExit (main app fs env).exit = true) ∧
    (setupOk env = true → restoreAllOk env = true →
      (run_app app env.script (initWorld fs)).2 = .ok →
      (main app fs env).exit = .success ∧ (main app fs env).printed = none) ∧
    (setupOk env = true → restoreAllOk env = true →
      (run_app app env.script (initWorld fs)).2 = .errs e →
      (main app fs env).exit = .success ∧
      (main app fs env).printed = some e ∧
      (main app fs env).restoreAttempted = true) := by
  rcases hrun : run_app app env.script (initWorld fs) with ⟨w, res⟩
  refine ⟨?_, ?_, ?_, ?_, ?_, ?_, ?_, ?_, ?_⟩
  · intro h; simp [main, h, nonZeroExit]
  · intro h1 h2; simp [main, h1, h2, nonZeroExit]
  · intro h1 h2 h3; simp [main, h1, h2, h3, nonZeroExit]
  · intro h1 h2 h3 h4; simp [main, h1, h2, h3, h4, nonZeroExit]
  · intro hs hres hd
    simp [setupOk, Bool.and_eq_true] at hs
    obtain ⟨⟨⟨h1, h2⟩, h3⟩, h4⟩ := hs
    rcases hres with h | h
    · have h' : res = LoopOut.ok := h
      subst h'
      simp [main, h1, h2, h3, h4, hrun, hd, nonZeroExit]
    · have h' : res = LoopOut.errs e := h
      subst h'
      simp [main, h1, h2, h3, h4, hrun, hd, nonZeroExit]
  · intro hs hres hd hl
    simp [setupOk, Bool.and_eq_true] at hs
    obtain ⟨⟨⟨h1, h2⟩, h3⟩, h4⟩ := hs
    rcases hres with h | h
    · have h' : res = LoopOut.ok := h
      subst h'
      simp [main, h1, h2, h3, h4, hrun, hd, hl, nonZeroExit]
    · have h' : res = LoopOut.errs e := h
      subst h'
      simp [main, h1, h2, h3, h4, hrun, hd, hl, nonZeroExit]
  · intro hs hres hd hl hc
    simp [setupOk, Bool.and_eq_true] at hs
    obtain ⟨⟨⟨h1, h2⟩, h3⟩, h4⟩ := hs
    rcases hres with h | h
    · have h' : res = LoopOut.ok := h
      subst h'
      simp [main, h1, h2, h3, h4, hrun, hd, hl, hc, nonZeroExit]
    · have h' : res = LoopOut.errs e := h
      subst h'
      simp [main, h1, h2, h3, h4, hrun, hd, hl, hc, nonZeroExit]
  · intro hs hr hloop
    simp [setupOk, Bool.and_eq_true] at hs
    obtain ⟨⟨⟨h1, h2⟩, h3⟩, h4⟩ := hs
    simp [restoreAllOk, Bool.and_eq_true] at hr
    obtain ⟨⟨hd, hl⟩, hsc⟩ := hr
    have h' : res = LoopOut.ok := hloop
    subst h'
    simp [main, h1, h2, h3, h4, hrun, hd, hl, hsc]
  · intro hs hr hloop
    simp [setupOk, Bool.and_eq_true] at hs
    obtain ⟨⟨⟨h1, h2⟩, h3⟩, h4⟩ := hs
    simp [restoreAllOk, Bool.and_eq_true] at hr
    obtain ⟨⟨hd, hl⟩, hsc⟩ := hr
    have h' : res = LoopOut.errs e := hloop
    subst h'
    simp [main, h1, h2, h3, h4, hrun, hd, hl, hsc]

/-- Witness for C1 (amended): a clean-quit run exits 0 printing nothing, and
a run whose restore block fails at leaving the alternate screen exits with
that error. -/
theorem C1_amended_exit_codes_witness :
    ((main app0 fsEmpty (envWith [stepQuit])).exit = .success ∧
      (main app0 fsEmpty (envWith [stepQuit])).printed = none) ∧
    (main app0 fsEmpty envLeaveAltFail).exit = .failure .leaveAlt :=
  ⟨(C1_amended_exit_codes app0 fsEmpty (envWith [stepQuit])
      .draw).2.2.2.2.2.2.2.1 rfl rfl rfl,
   ((C1_amended_exit_codes app0 fsEmpty envLeaveAltFail .draw).2.2.2.2.2.1 rfl
      (Or.inl rfl) rfl rfl).1⟩

/-- Counterexample to claim C4 as stated: when the loop ends because an
editor spawn failed, the program panics out of `expect` and terminal-mode
restoration is never attempted before the process ends. -/
theorem C4_counterexample :
    (main app0 fsEmpty (envWith [stepEditSpawnFail])).exit =
      .panicAbort "failed to edit" ∧
    (main app0 fsEmpty (envWith [stepEditSpawnFail])).restoreAttempted = false :=
  ⟨rfl, rfl⟩

/-- Claim C4 (amended): after a successful setup, terminal-mode restoration
is attempted whenever the event loop returns — on a clean quit or on any
error it propagates (input-read failure, truncate failure, terminal-mode
failure mapped to a broken-pipe error) — but not when a spawn failure panics,
which unwinds past the restore block so restoration is never attempted. -/
theorem C4_amended_restore_on_return (app : App) (fs : FsState) (env : MainEnv)
    (hs : setupOk env = true) :
    ((run_app app env.script (initWorld fs)).2 = .ok →
      (main app fs env).restoreAttempted = true) ∧
    (∀ e, (run_app app env.script (initWorld fs)).2 = .errs e →
      (main app fs env).restoreAttempted = true) ∧
    (∀ m, (run_app app env.script (initWorld fs)).2 = .panicked m →
      (main app fs env).restoreAttempted = false) := by
  simp [setupOk, Bool.and_eq_true] at hs
  obtain ⟨⟨⟨h1, h2⟩, h3⟩, h4⟩ := hs
  rcases hrun : run_app app env.script (initWorld fs) with ⟨w, res⟩
  refine ⟨?_, ?_, ?_⟩
  · intro h
    have h' : res = LoopOut.ok := h
    subst h'
    cases hd : env.disableRawOk <;> cases hl : env.leaveAltOk <;>
      cases hc : env.showCursorOk <;>
      simp [main, h1, h2, h3, h4, hrun, hd, hl, hc]
  · intro e h
    have h' : res = LoopOut.errs e := h
    subst h'
    cases hd : env.disableRawOk <;> cases hl : env.leaveAltOk <;>
      cases hc : env.showCursorOk <;>
      simp [main, h1, h2, h3, h4, hrun, hd, hl, hc]
  · intro m h
    have h' : res = LoopOut.panicked m := h
    subst h'
    simp [main, h1, h2, h3, h4, hrun]

/-- Witness for C4 (amended): a clean-quit run reaches the restore block. -/
theorem C4_amended_restore_on_return_witness :
    (main app0 fsEmpty (envWith [stepQuit])).restoreAttempted = true :=
  (C4_amended_restore_on_return app0 fsEmpty (envWith [stepQuit]) rfl).1 rfl

end Diffur
